import Mathlib

/-!
Shallow embedding of the core of the casper-node repository: the weighted
round-robin scheduler, the small-network handshake and incoming-connection
logic, the validator reactor dispatcher, the reactor code generator, the
three-stage lifecycle reactor, the localhost socket allocator and the
contract-runtime execute request.  Each definition is translated from the
named Rust source item; theorems settle the frozen claims about them.
-/

namespace CasperNode

/-! ## Chain information (`node/src/components/small_network/chain_info.rs`) -/

/-- Model of a 32-byte chainspec digest (`crypto::hash::Digest`).  Only
equality and set membership of digests are relevant to the embedded code, so
digests are modelled as natural numbers. -/
abbrev Digest := Nat

/-- Model of a semver protocol version (`casper_types::ProtocolVersion`). -/
abbrev ProtocolVersion := Nat × Nat × Nat

/-- Model of a socket address; only passed around and compared, never
inspected, so an opaque natural number suffices. -/
abbrev SocketAddr := Nat

/-- Data retained from the chainspec by the small networking component
(`struct ChainInfo`).  The `HashSet<Digest>` of supported ancestors is
modelled as a list, list membership standing for set membership. -/
structure ChainInfo where
  networkName : String
  maximumNetMessageSize : Nat
  protocolVersion : ProtocolVersion
  ourChainspec : Digest
  supportedAncestors : List Digest
deriving DecidableEq

/-- `ChainInfo::is_compatible_with` (chain_info.rs lines 60-82), translated
clause for clause: an exact digest match is accepted at once, otherwise
compatibility on at least one side's ancestor set is required; a peer that
omits its chainspec is always accepted. -/
def ChainInfo.is_compatible_with (info : ChainInfo) (theirChainspec : Option Digest)
    (theirSupports : List Digest) : Bool :=
  match theirChainspec with
  | some theirCs =>
    if theirCs = info.ourChainspec then
      true
    else
      info.supportedAncestors.contains theirCs || theirSupports.contains info.ourChainspec
  | none => true

/-- The concrete chain info of the compatibility scenario: our digest is `H1`
(modelled as `0`) and our supported-ancestors set is empty. -/
def chainInfoH1 : ChainInfo :=
  { networkName := "example"
    maximumNetMessageSize := 23068672
    protocolVersion := (1, 0, 0)
    ourChainspec := 0
    supportedAncestors := [] }

/-! ## Execute request
(`node/src/components/contract_runtime/core/engine_state/execute_request.rs`) -/

/-- Model of `DeployItem`; opaque to the embedded code. -/
abbrev DeployItem := Nat

/-- Model of `ExecutionResult`; opaque to the embedded code. -/
abbrev ExecutionResult := Nat

/-- Model of `PublicKey`; opaque to the embedded code. -/
abbrev PublicKey := Nat

/-- `struct ExecuteRequest` (execute_request.rs lines 8-15).  The Rust
`Vec<Result<DeployItem, ExecutionResult>>` becomes a list of
`Except ExecutionResult DeployItem`. -/
structure ExecuteRequest where
  parentStateHash : Digest
  blockTime : Nat
  deploys : List (Except ExecutionResult DeployItem)
  protocolVersion : ProtocolVersion
  proposer : PublicKey

/-- `ExecuteRequest::take_deploys` (execute_request.rs lines 34-37):
`mem::replace(&mut self.deploys, vec![])`, i.e. the current deploys are
returned and the field is left empty.  The mutation is made explicit by
returning the updated request alongside the old deploys. -/
def ExecuteRequest.take_deploys (r : ExecuteRequest) :
    List (Except ExecutionResult DeployItem) × ExecuteRequest :=
  (r.deploys, { r with deploys := [] })

/-! ## Weighted round-robin scheduler (`node/src/utils/round_robin.rs`) -/

/-- An internal slot in the round-robin scheduler (`struct Slot<K>`): the key
identifying a queue and the number of items to return before moving on. -/
structure Slot (K : Type) where
  key : K
  tickets : Nat
deriving DecidableEq

instance {K : Type} [Inhabited K] : Inhabited (Slot K) :=
  ⟨{ key := default, tickets := 0 }⟩

/-- Lock-protected internal state of the scheduler
(`struct InternalState<I, K>`).  The `HashMap<K, VecDeque<I>>` of queues is
modelled as a total function from keys to lists; `new` registers every key of
`weights` with an empty queue. -/
structure InternalState (I K : Type) where
  activeSlot : Slot K
  activeSlotIdx : Nat
  queues : K → List I
  count : Nat

/-- `struct WeightedRoundRobin<I, K>` without the concurrency primitives: the
mutex-guarded state and the immutable slot blueprint.  The `Notify` wake-up
primitive is represented in `PopOutcome.waiting` below. -/
structure WeightedRoundRobin (I K : Type) where
  state : InternalState I K
  slots : List (Slot K)

/-- `WeightedRoundRobin::new` (round_robin.rs lines 84-110): one slot per
weight entry, all queues empty, the first slot active.  The source asserts
that `weights` is non-empty and takes `slots[0]`; the model uses `headD` with
a default, which agrees with the source on every non-empty weight list. -/
def WeightedRoundRobin.new {I K : Type} [Inhabited K]
    (weights : List (K × Nat)) : WeightedRoundRobin I K :=
  let slots : List (Slot K) := weights.map fun p => { key := p.1, tickets := p.2 }
  { state :=
      { activeSlot := slots.headD default
        activeSlotIdx := 0
        queues := fun _ => []
        count := 0 }
    slots := slots }

/-- `WeightedRoundRobin::push` (round_robin.rs lines 118-133): appends the
item to the back of the queue identified by `queue` and increments the total
count.  (The source then calls `notify_one`, which has no effect on the
queue state.) -/
def WeightedRoundRobin.push {I K : Type} [DecidableEq K]
    (s : WeightedRoundRobin I K) (item : I) (queue : K) : WeightedRoundRobin I K :=
  { s with
    state :=
      { s.state with
        queues := fun k => if k = queue then s.state.queues k ++ [item] else s.state.queues k
        count := s.state.count + 1 } }

/-- One call of `WeightedRoundRobin::pop` can be observed in three ways:
the consumer parked on the `Notify` primitive because every queue was empty,
a returned item with its queue kind, or the call still inside the inner
`'pop` loop after the modelled number of iterations. -/
inductive PopOutcome (I K : Type) where
  | waiting
  | returned (item : I) (kind : K)
  | stillLooping
deriving DecidableEq

/-- The inner `'pop` loop of `WeightedRoundRobin::pop` exactly as the source
stands (round_robin.rs lines 154-175): every statement of the loop body,
including the ticket bookkeeping and the `return`, is commented out, so one
iteration changes nothing and the loop can never produce an item.  Iteration
is made explicit with fuel; `none` means the loop was still running after
`fuel` iterations. -/
def popLoopAsWritten (I K : Type) (fuel : Nat) : Option (I × K) :=
  match fuel with
  | 0 => none
  | Nat.succ n => popLoopAsWritten I K n

/-- `WeightedRoundRobin::pop` as the source stands (round_robin.rs lines
142-177): with `count = 0` the lock is released and the consumer awaits a
notification; otherwise the call enters the inner `'pop` loop, whose body is
entirely commented out. -/
def WeightedRoundRobin.popAsWritten {I K : Type}
    (s : WeightedRoundRobin I K) (fuel : Nat) : PopOutcome I K :=
  if s.state.count = 0 then
    PopOutcome.waiting
  else
    match popLoopAsWritten I K fuel with
    | some (item, kind) => PopOutcome.returned item kind
    | none => PopOutcome.stillLooping

/-- One pass of the pop algorithm that the commented-out body of the `'pop`
loop spells out (round_robin.rs lines 155-174): advance to the next slot
while the active slot is out of tickets or its queue is empty, then decrement
the tickets and pop the front of the queue.  The commented body leaves
`count` untouched; the model likewise (the claims below only consume items).
Fuel bounds the slot-advancing iterations. -/
def popLoopCommentedOut {I K : Type} [DecidableEq K] (slots : List (Slot K)) :
    Nat → InternalState I K → Option ((I × K) × InternalState I K)
  | 0, _ => none
  | Nat.succ n, st =>
    match st.queues st.activeSlot.key with
    | [] =>
      let idx := (st.activeSlotIdx + 1) % slots.length
      popLoopCommentedOut slots n
        { st with activeSlotIdx := idx, activeSlot := slots.getD idx st.activeSlot }
    | item :: rest =>
      if st.activeSlot.tickets = 0 then
        let idx := (st.activeSlotIdx + 1) % slots.length
        popLoopCommentedOut slots n
          { st with activeSlotIdx := idx, activeSlot := slots.getD idx st.activeSlot }
      else
        some ((item, st.activeSlot.key),
          { st with
            activeSlot := { st.activeSlot with tickets := st.activeSlot.tickets - 1 }
            queues := fun k => if k = st.activeSlot.key then rest else st.queues k })

/-- Repeatedly run the commented-out pop algorithm, collecting the returned
`(item, queue kind)` pairs. -/
def popSequence {I K : Type} [DecidableEq K] (slots : List (Slot K)) (fuel : Nat) :
    Nat → InternalState I K → List (I × K)
  | 0, _ => []
  | Nat.succ n, st =>
    match popLoopCommentedOut slots fuel st with
    | none => []
    | some ((item, kind), st2) => (item, kind) :: popSequence slots fuel n st2

/-- The queue kinds of the scheduler test (round_robin.rs lines 278-283,
`enum QueueKind { One = 1, Two }`). -/
inductive TestQueueKind where
  | one
  | two
deriving DecidableEq, Inhabited

/-- The weights of the scheduler test (round_robin.rs lines 285-292):
queue `One` has weight 1 and queue `Two` has weight 2. -/
def testWeights : List (TestQueueKind × Nat) :=
  [(TestQueueKind.one, 1), (TestQueueKind.two, 2)]

/-- The scheduler state of `should_respect_weighting` (round_robin.rs lines
294-315) after pushing `a`, `b`, `c` onto queue `One` and `d`, `e`, `f` onto
queue `Two`. -/
def testScheduler : WeightedRoundRobin Char TestQueueKind :=
  ((((((WeightedRoundRobin.new testWeights).push 'a' TestQueueKind.one).push
      'b' TestQueueKind.one).push 'c' TestQueueKind.one).push
      'd' TestQueueKind.two).push 'e' TestQueueKind.two).push 'f' TestQueueKind.two

/-! ## Small-network tasks (`node/src/components/small_network/tasks.rs`) -/

/-- Model of a node identity (`NodeId`): the fingerprint of the peer TLS
certificate's public key; only compared for equality here. -/
abbrev NodeId := Nat

/-- `enum IoError<E>` (tasks.rs lines 343-357): an I/O operation that can time
out, fail with an underlying error, or hit an unexpected end of file.  The
underlying `io::Error` payload is opaque and modelled as a natural number. -/
inductive IoError where
  | timeout
  | error (e : Nat)
  | unexpectedEof
deriving DecidableEq

/-- Modelled from the spec: the network `Message` enum lives in
`small_network/mod.rs`, which is not among the available sources.  Section 6
of the specification gives the handshake payload as network name, advertised
public address, protocol version, optional chainspec digest and set of
supported ancestor digests, which matches the fields `create_handshake`
fills in.  All non-handshake peer-to-peer messages are collapsed into one
opaque `payload` variant, since the embedded code only distinguishes
handshakes from everything else. -/
inductive Message where
  | handshake (networkName : String) (publicAddress : SocketAddr)
      (protocolVersion : ProtocolVersion) (chainspec : Option Digest)
      (supports : List Digest)
  | payload (p : Nat)
deriving DecidableEq

/-- `ChainInfo::create_handshake` (chain_info.rs lines 49-57): a handshake
message carrying our network name, the given public address, our protocol
version, our chainspec digest and our supported ancestors. -/
def ChainInfo.create_handshake (info : ChainInfo) (publicAddress : SocketAddr) : Message :=
  Message.handshake info.networkName publicAddress info.protocolVersion
    (some info.ourChainspec) info.supportedAncestors

/-- `enum ConnectionError` (tasks.rs lines 142-184). -/
inductive ConnectionError where
  | acceptorCreation
  | tlsHandshake
  | noClientCertificate
  | peerCertificateInvalid
  | handshakeSend (e : IoError)
  | handshakeRecv (e : IoError)
  | wrongNetwork (name : String)
  | didNotSendHandshake
deriving DecidableEq

/-- The part of `struct NetworkContext` (tasks.rs lines 128-139) the embedded
tasks read: our own node id, the chain information and our advertised public
address. -/
structure NetworkContext where
  ourId : NodeId
  chainInfo : ChainInfo
  publicAddr : SocketAddr
deriving DecidableEq

/-- `negotiate_handshake` (tasks.rs lines 391-427).  Sending our handshake and
reading the peer's first frame are I/O; their outcomes enter the model as
arguments: `sendResult` is the outcome of
`io_timeout(HANDSHAKE_TIMEOUT, transport.send(handshake))` (`none` meaning
success) and `recvResult` the outcome of
`io_opt_timeout(HANDSHAKE_TIMEOUT, transport.next())`.  The source's match
binds only the network name, public address and protocol version of the
received handshake; the chainspec digest and supports fields are never
inspected, and `ChainInfo::is_compatible_with` is not called. -/
def negotiate_handshake (context : NetworkContext) (sendResult : Option IoError)
    (recvResult : Except IoError Message) : Except ConnectionError SocketAddr :=
  match sendResult with
  | some e => Except.error (ConnectionError.handshakeSend e)
  | none =>
    match recvResult with
    | Except.error e => Except.error (ConnectionError.handshakeRecv e)
    | Except.ok remoteHandshake =>
      match remoteHandshake with
      | Message.handshake networkName publicAddr _protocolVersion _chainspec _supports =>
        if networkName ≠ context.chainInfo.networkName then
          Except.error (ConnectionError.wrongNetwork networkName)
        else
          Except.ok publicAddr
      | Message.payload _ => Except.error ConnectionError.didNotSendHandshake

/-- `enum IncomingConnection<P>` (tasks.rs lines 188-219); the message stream
of the `Established` variant is not part of the observable outcome and is
omitted. -/
inductive IncomingConnection where
  | failedEarly (peerAddr : SocketAddr) (error : ConnectionError)
  | failed (peerAddr : SocketAddr) (peerId : NodeId) (error : ConnectionError)
  | loopback
  | established (peerAddr : SocketAddr) (publicAddr : SocketAddr) (peerId : NodeId)
deriving DecidableEq

/-- `handle_incoming` (tasks.rs lines 250-307).  The TLS setup of
`server_setup_tls` is I/O; its outcome enters the model as `setupResult`
(either a connection error or the peer's node id derived from its certificate
fingerprint).  A setup error yields `FailedEarly`; a peer id equal to our own
yields `Loopback`; otherwise the handshake is negotiated and the connection is
`Established` or `Failed`. -/
def handle_incoming (context : NetworkContext) (peerAddr : SocketAddr)
    (setupResult : Except ConnectionError NodeId) (sendResult : Option IoError)
    (recvResult : Except IoError Message) : IncomingConnection :=
  match setupResult with
  | Except.error error => IncomingConnection.failedEarly peerAddr error
  | Except.ok peerId =>
    if peerId = context.ourId then
      IncomingConnection.loopback
    else
      match negotiate_handshake context sendResult recvResult with
      | Except.ok publicAddr => IncomingConnection.established peerAddr publicAddr peerId
      | Except.error error => IncomingConnection.failed peerAddr peerId error

/-- The queue kinds named by the embedded networking tasks
(`reactor::QueueKind`); the full enumeration lives outside the available
sources, but the tasks only ever schedule onto these kinds. -/
inductive ReactorQueueKind where
  | networkIncoming
  | network
deriving DecidableEq

/-- The small-network events the embedded tasks schedule
(`small_network::Event`), restricted to the variant the server loop emits. -/
inductive SmallNetworkEvent where
  | incomingConnection (incoming : IncomingConnection)
deriving DecidableEq

/-- The per-connection task spawned by `server` (tasks.rs lines 455-471): it
runs `handle_incoming` and then unconditionally schedules the outcome —
whatever it is, `Loopback` included — as an `IncomingConnection` event on the
`NetworkIncoming` queue. -/
def serverConnectionEvents (context : NetworkContext) (peerAddr : SocketAddr)
    (setupResult : Except ConnectionError NodeId) (sendResult : Option IoError)
    (recvResult : Except IoError Message) : List (SmallNetworkEvent × ReactorQueueKind) :=
  [(SmallNetworkEvent.incomingConnection
      (handle_incoming context peerAddr setupResult sendResult recvResult),
    ReactorQueueKind.networkIncoming)]

/-- A concrete network context used by the counterexamples: node id 7,
the `H1` chain info, public address 3. -/
def contextH1 : NetworkContext :=
  { ourId := 7, chainInfo := chainInfoH1, publicAddr := 3 }

/-! ## Validator reactor dispatch (`node/src/reactor/validator.rs`) -/

/-- The components owned by the validator reactor (`struct Reactor`,
validator.rs lines 156-165). -/
inductive ValidatorComponent where
  | net
  | pinger
  | storage
  | contractRuntime
  | apiServer
  | consensus
  | deployGossiper
deriving DecidableEq

/-- The payload sum of the validator reactor's network messages
(`enum Message`, validator.rs lines 43-53), reduced to the variant tags: the
dispatcher only matches on the variant. -/
inductive ValidatorMessage where
  | pinger
  | consensus
  | deployGossiper
deriving DecidableEq

/-- The top-level event sum of the validator reactor (`enum Event`,
validator.rs lines 68-105), reduced to the variant tags plus the payload tag
of announcements: `dispatch_event` routes on exactly this information. -/
inductive ValidatorEvent where
  | network
  | pinger
  | storage
  | apiServer
  | consensus
  | deployGossiper
  | networkRequest
  | metricsRequest
  | networkAnnouncement (payload : ValidatorMessage)
  | contractRuntime
deriving DecidableEq

/-- How one call of the validator's `dispatch_event` can end, observed at the
level of which component's `handle_event` it reaches: a normal return after
invoking that component, the panic of the `todo!()` arm, or — since the
source recurses on itself — no result within the modelled recursion depth. -/
inductive DispatchResult where
  | handled (component : ValidatorComponent)
  | todoPanic
  | noTermination
deriving DecidableEq

/-- `Reactor::dispatch_event` for the validator reactor (validator.rs lines
218-286), arm for arm.  Component-event variants call that component's
`handle_event`; `NetworkRequest` re-dispatches as a `Network` event;
`MetricsRequest` re-dispatches `Event::MetricsRequest(req)` — itself —
verbatim from line 257-259; announcements re-dispatch as the matching
component event; `ContractRuntime` is `todo!()` (line 284).  The recursive
`self.dispatch_event(...)` calls are given explicit fuel; `noTermination`
means no result after `fuel` nested calls. -/
def dispatch_event (fuel : Nat) (event : ValidatorEvent) : DispatchResult :=
  match event with
  | ValidatorEvent.network => DispatchResult.handled ValidatorComponent.net
  | ValidatorEvent.pinger => DispatchResult.handled ValidatorComponent.pinger
  | ValidatorEvent.storage => DispatchResult.handled ValidatorComponent.storage
  | ValidatorEvent.apiServer => DispatchResult.handled ValidatorComponent.apiServer
  | ValidatorEvent.consensus => DispatchResult.handled ValidatorComponent.consensus
  | ValidatorEvent.deployGossiper => DispatchResult.handled ValidatorComponent.deployGossiper
  | ValidatorEvent.networkRequest =>
    match fuel with
    | 0 => DispatchResult.noTermination
    | Nat.succ n => dispatch_event n ValidatorEvent.network
  | ValidatorEvent.metricsRequest =>
    match fuel with
    | 0 => DispatchResult.noTermination
    | Nat.succ n => dispatch_event n ValidatorEvent.metricsRequest
  | ValidatorEvent.networkAnnouncement payload =>
    match fuel with
    | 0 => DispatchResult.noTermination
    | Nat.succ n =>
      match payload with
      | ValidatorMessage.consensus => dispatch_event n ValidatorEvent.consensus
      | ValidatorMessage.pinger => dispatch_event n ValidatorEvent.pinger
      | ValidatorMessage.deployGossiper => dispatch_event n ValidatorEvent.deployGossiper
  | ValidatorEvent.contractRuntime => DispatchResult.todoPanic

/-! ## Generated reactor constructor (`cosy-macro/src/gen.rs`) -/

/-- Semantics of the component-construction sequence emitted by
`generate_reactor_impl` (gen.rs lines 204-252).  For each declared component,
in declaration order, the generated code is
`let (field_i, effects) = Ci::new(args).map_err(Error::Vi)?;`
and the final expression of `new` is `Ok(ReactorIdent { field_1, .. })`.
Each constructor outcome enters the model already error-wrapped, as a
component value paired with its initial effects.  The binder `effects` is
freshly shadowed by every line and never read, and the returned value holds
the component fields only, so the result type contains no effects at all. -/
def generatedNew {C E Err : Type} (ctorResults : List (Except Err (C × List E))) :
    Except Err (List C) :=
  match ctorResults with
  | [] => Except.ok []
  | r :: rest =>
    match r with
    | Except.error e => Except.error e
    | Except.ok (c, _effects) =>
      match generatedNew rest with
      | Except.error e => Except.error e
      | Except.ok cs => Except.ok (c :: cs)

/-! ## Three-stage lifecycle reactor (`node/src/testing/three_stage_reactor.rs`) -/

/-- Abstract view of an inner reactor: the only things the outer three-stage
reactor inspects after dispatching an event into it are `is_stopped()` and
`stopped_successfully()`. -/
structure InnerReactor where
  isStopped : Bool
  stoppedSuccessfully : Bool
deriving DecidableEq

/-- `enum Stage` (three_stage_reactor.rs lines 22-28). -/
inductive Stage where
  | notStarted
  | initializing
  | joining
  | validating
deriving DecidableEq

/-- `enum ThreeStageReactor` (three_stage_reactor.rs lines 30-44): the current
inner reactor together with its private event queue handle, of which the
dispatcher only consults emptiness (`is_empty`, asserted on transition). -/
inductive ThreeStageReactor where
  | notStarted
  | initializer (reactor : InnerReactor) (queueEmpty : Bool)
  | joiner (reactor : InnerReactor) (queueEmpty : Bool)
  | validator (reactor : InnerReactor) (queueEmpty : Bool)
deriving DecidableEq

/-- `ThreeStageReactor::stage` (three_stage_reactor.rs lines 47-54). -/
def ThreeStageReactor.stage : ThreeStageReactor → Stage
  | ThreeStageReactor.notStarted => Stage.notStarted
  | ThreeStageReactor.initializer _ _ => Stage.initializing
  | ThreeStageReactor.joiner _ _ => Stage.joining
  | ThreeStageReactor.validator _ _ => Stage.validating

/-- `enum ThreeStageEvent` (three_stage_reactor.rs lines 57-65), with the
inner event abstracted to its observable effect: dispatching it into the
matching inner reactor leaves that reactor in the carried `post` state. -/
inductive ThreeStageEvent where
  | initializerEvent (post : InnerReactor)
  | joinerEvent (post : InnerReactor)
  | validatorEvent (post : InnerReactor)
deriving DecidableEq

/-- How one call of the three-stage `dispatch_event` ends: a normal return
with the new outer reactor state, or an abort through `panic!`, a failed
`assert!` or a `todo!()`. -/
inductive ThreeStageOutcome where
  | ok (reactor : ThreeStageReactor)
  | panicked (message : String)
deriving DecidableEq

/-- `ThreeStageReactor::dispatch_event` (three_stage_reactor.rs lines
97-239), arm for arm, with effects omitted.  Lines 106-107 swap
`ThreeStageReactor::NotStarted` into `*self` and move the previous state into
the local `tsr`; the only assignments back to `*self` sit inside the
transition block (lines 191 and 224), so on every normally-returning path the
outer reactor is left as `NotStarted` and the previous state (including the
inner reactor the event was dispatched into) is dropped with `tsr`.  An
initializer event whose dispatch leaves the inner reactor stopped panics on a
failed `stopped_successfully()` (line 123); otherwise `should_transition` is
set and the transition arm runs: it asserts the initializer's private queue
is empty (line 173) and then evaluates
`JoinerReactor::new(WithDir::new("TODO", initializer_reactor), todo!(), ..)`,
whose second argument is `todo!()` (line 185), aborting the call before the
`*self = Joiner(..)` of line 191 is reached.  The joiner and validator arms
dispatch into the local `tsr` and never set `should_transition`, and an event
arriving at a non-matching stage is logged and discarded, so all of these
return normally with `*self` still `NotStarted`.  The returned
`ThreeStageOutcome.ok` carries the final value of `*self`. -/
def ThreeStageReactor.dispatch_event (tsr : ThreeStageReactor) (event : ThreeStageEvent) :
    ThreeStageOutcome :=
  match event, tsr with
  | ThreeStageEvent.initializerEvent post, ThreeStageReactor.initializer _ queueEmpty =>
    if post.isStopped then
      if !post.stoppedSuccessfully then
        ThreeStageOutcome.panicked "failed to transition from initializer to joiner"
      else if !queueEmpty then
        ThreeStageOutcome.panicked "assertion failed: initializer queue is empty"
      else
        ThreeStageOutcome.panicked "not yet implemented"
    else
      ThreeStageOutcome.ok ThreeStageReactor.notStarted
  | ThreeStageEvent.joinerEvent _, ThreeStageReactor.joiner _ _ =>
    ThreeStageOutcome.ok ThreeStageReactor.notStarted
  | ThreeStageEvent.validatorEvent _, ThreeStageReactor.validator _ _ =>
    ThreeStageOutcome.ok ThreeStageReactor.notStarted
  | _, _ => ThreeStageOutcome.ok ThreeStageReactor.notStarted

/-! ## Localhost socket allocator (`ITSMYSOCKET.rs`) -/

/-- The two socket options the source could have set:
`SO_REUSEADDR`, which the documentation and the `expect` message name, and
`SO_REUSEPORT`, which `socket::setsockopt(listener.as_raw_fd(), ReusePort,
&true)` actually sets. -/
inductive SockOpt where
  | reuseAddr
  | reusePort
deriving DecidableEq

/-- Model of the bound `TcpListener`: the local address the OS assigned. -/
structure TcpListenerM where
  localIp : Nat × Nat × Nat × Nat
  localPort : Nat
deriving DecidableEq

/-- Observable trace of a call to `unused_socket_on_localhost`. -/
structure LocalhostSocketResult where
  bindIp : Nat × Nat × Nat × Nat
  bindPort : Nat
  optionsSet : List SockOpt
  returnedPort : Nat
  returnedListener : TcpListenerM
deriving DecidableEq

/-- `unused_socket_on_localhost` (ITSMYSOCKET.rs).  Lines 7-13 are leftover
Unix-socket code referring to names not in scope; the live tail (lines 17-29)
binds a TCP listener to `127.0.0.1` port 0, reads the OS-assigned local
address, sets the `ReusePort` option (`SO_REUSEPORT`) on the listener's file
descriptor, and returns the assigned port together with the listener.  The
port the OS assigns is an input of the model. -/
def unused_socket_on_localhost (osAssignedPort : Nat) : LocalhostSocketResult :=
  let listener : TcpListenerM := { localIp := (127, 0, 0, 1), localPort := osAssignedPort }
  { bindIp := (127, 0, 0, 1)
    bindPort := 0
    optionsSet := [SockOpt.reusePort]
    returnedPort := listener.localPort
    returnedListener := listener }

end CasperNode

namespace CasperNode

/-! ## Claims about chain info and the execute request -/

/-- C6: `is_compatible_with` returns true iff the digests match exactly, or
either side's supported-ancestors set contains the other side's digest, or the
peer omits a chainspec; concretely, with ours = `H1` (`0`) and empty supports,
a peer sending `some H2` (`1`) with supports containing `H1` is compatible, a
peer sending `some H2` with empty supports is incompatible, and a peer sending
`none` is compatible. -/
theorem is_compatible_with_characterization :
    (∀ (info : ChainInfo) (theirChainspec : Option Digest) (theirSupports : List Digest),
      info.is_compatible_with theirChainspec theirSupports = true ↔
        (theirChainspec = none ∨
          ∃ d, theirChainspec = some d ∧
            (d = info.ourChainspec ∨ d ∈ info.supportedAncestors ∨
              info.ourChainspec ∈ theirSupports))) ∧
    chainInfoH1.is_compatible_with (some 1) [0] = true ∧
    chainInfoH1.is_compatible_with (some 1) [] = false ∧
    chainInfoH1.is_compatible_with none [] = true := by
  refine ⟨fun info theirChainspec theirSupports => ?_, by decide, by decide, by decide⟩
  cases theirChainspec with
  | none => simp [ChainInfo.is_compatible_with]
  | some d =>
    by_cases h : d = info.ourChainspec
    · simp [ChainInfo.is_compatible_with, h]
    · simp only [ChainInfo.is_compatible_with, if_neg h, Bool.or_eq_true,
        List.contains, List.elem_iff]
      constructor
      · rintro (hd | hd)
        · exact Or.inr ⟨d, rfl, Or.inr (Or.inl hd)⟩
        · exact Or.inr ⟨d, rfl, Or.inr (Or.inr hd)⟩
      · rintro (hnone | ⟨e, he, hcase⟩)
        · exact absurd hnone (by simp)
        · obtain rfl : d = e := by injection he
          rcases hcase with hde | hmem | hmem
          · exact absurd hde h
          · exact Or.inl hmem
          · exact Or.inr hmem

/-- C9: when both peers supply a chainspec digest the compatibility predicate
is symmetric: `a.is_compatible_with (some b.ourChainspec) b.supportedAncestors`
equals `b.is_compatible_with (some a.ourChainspec) a.supportedAncestors`. -/
theorem is_compatible_with_symm (a b : ChainInfo) :
    a.is_compatible_with (some b.ourChainspec) b.supportedAncestors =
      b.is_compatible_with (some a.ourChainspec) a.supportedAncestors := by
  simp only [ChainInfo.is_compatible_with]
  by_cases h : b.ourChainspec = a.ourChainspec
  · rw [if_pos h, if_pos h.symm]
  · rw [if_neg h, if_neg (fun hh => h hh.symm)]
    exact Bool.or_comm _ _

/-- C10: `take_deploys` returns exactly the request's current deploys sequence
in order, afterwards the deploys field is empty, and the remaining fields
(`parent_state_hash`, `block_time`, `protocol_version`, `proposer`) are
unchanged. -/
theorem take_deploys_spec (r : ExecuteRequest) :
    r.take_deploys.1 = r.deploys ∧
    r.take_deploys.2.deploys = [] ∧
    r.take_deploys.2.parentStateHash = r.parentStateHash ∧
    r.take_deploys.2.blockTime = r.blockTime ∧
    r.take_deploys.2.protocolVersion = r.protocolVersion ∧
    r.take_deploys.2.proposer = r.proposer :=
  ⟨rfl, rfl, rfl, rfl, rfl, rfl⟩

/-! ## Claims about the weighted round-robin scheduler -/

/-- The all-commented-out inner loop never produces an item, whatever the
fuel. -/
theorem popLoopAsWritten_eq_none (I K : Type) (fuel : Nat) :
    popLoopAsWritten I K fuel = none := by
  induction fuel with
  | zero => rfl
  | succ n ih => simpa [popLoopAsWritten] using ih

/-- C1: evaluation of `pop` as the source stands, at the input of the
repository's own `should_respect_weighting` test.  After the six pushes the
total count is 6, so `pop` does not park on the notifier; it enters the inner
`'pop` loop, whose body is entirely commented out, and therefore never
returns an item — in particular it never returns `('a', One)` and the test's
expected sequence is unreachable. -/
theorem pop_as_written_never_returns :
    testScheduler.state.count = 6 ∧
    ∀ fuel : Nat, testScheduler.popAsWritten fuel = PopOutcome.stillLooping := by
  refine ⟨rfl, fun fuel => ?_⟩
  simp [WeightedRoundRobin.popAsWritten, popLoopAsWritten_eq_none,
    show testScheduler.state.count = 6 from rfl]

/-! ## Claims about the small-network tasks -/

/-- C2 counterexample: a peer whose first frame is a handshake with our
network name but an incompatible chainspec (digest `H2 = 1`, empty supports,
against our `H1 = 0` with empty supports) still negotiates successfully:
`negotiate_handshake` returns the peer's advertised address even though
`is_compatible_with` is false, refuting that success holds iff the
compatibility predicate holds. -/
theorem negotiate_handshake_ignores_compatibility :
    negotiate_handshake contextH1 none
        (Except.ok (Message.handshake "example" 9 (1, 0, 0) (some 1) [])) =
      Except.ok 9 ∧
    chainInfoH1.is_compatible_with (some 1) [] = false := by
  constructor
  · rfl
  · decide

/-- C2 (amended): for every incoming connection whose handshake send succeeded
and whose first received frame is a handshake with a network name equal to
ours, negotiation succeeds returning the peer's advertised public address,
regardless of the peer's chainspec digest and supports — the chainspec
compatibility predicate is not consulted. -/
theorem negotiate_handshake_matching_network_succeeds
    (context : NetworkContext) (publicAddr : SocketAddr) (pv : ProtocolVersion)
    (chainspec : Option Digest) (supports : List Digest) :
    negotiate_handshake context none
        (Except.ok (Message.handshake context.chainInfo.networkName publicAddr pv
          chainspec supports)) =
      Except.ok publicAddr := by
  simp [negotiate_handshake]

/-- C7 counterexample: an incoming connection whose peer id (7) equals our
node id (7) does produce the `Loopback` outcome, but the server's
per-connection task still emits a connection event for it — the scheduled
event list is not empty, refuting that no connection event is emitted. -/
theorem loopback_event_still_emitted :
    handle_incoming contextH1 5 (Except.ok 7) none
        (Except.ok (Message.payload 0)) = IncomingConnection.loopback ∧
    (serverConnectionEvents contextH1 5 (Except.ok 7) none
        (Except.ok (Message.payload 0))).isEmpty = false := by
  decide

/-- C7 (amended): for every incoming connection in which the peer's derived
node id equals the local node id, the outcome of `handle_incoming` is
`Loopback`, and the server schedules exactly that `Loopback` outcome as an
`IncomingConnection` event on the `NetworkIncoming` queue (rather than
emitting no connection event). -/
theorem loopback_outcome_and_event (context : NetworkContext) (peerAddr : SocketAddr)
    (sendResult : Option IoError) (recvResult : Except IoError Message) :
    handle_incoming context peerAddr (Except.ok context.ourId) sendResult recvResult =
      IncomingConnection.loopback ∧
    serverConnectionEvents context peerAddr (Except.ok context.ourId) sendResult recvResult =
      [(SmallNetworkEvent.incomingConnection IncomingConnection.loopback,
        ReactorQueueKind.networkIncoming)] := by
  constructor <;> simp [handle_incoming, serverConnectionEvents]

/-- The algorithm spelled out by the commented-out loop body does produce the
sequence the test asserts: `a, d, e, b, f, c`. -/
theorem commented_out_pop_respects_weighting :
    popSequence testScheduler.slots 8 6 testScheduler.state =
      [('a', TestQueueKind.one), ('d', TestQueueKind.two), ('e', TestQueueKind.two),
        ('b', TestQueueKind.one), ('f', TestQueueKind.two), ('c', TestQueueKind.one)] := by
  decide

/-! ## Claims about the validator reactor dispatcher -/

/-- C3: evaluation of the validator's `dispatch_event` at the two event
variants the claim singles out.  A `MetricsRequest` event re-dispatches
itself, so the call never terminates at any recursion depth and no
component's `handle_event` is ever invoked; a `ContractRuntime` event reaches
the `todo!()` arm and panics instead of invoking the contract runtime
component. -/
theorem dispatch_event_metrics_and_contract_runtime :
    (∀ fuel : Nat,
      dispatch_event fuel ValidatorEvent.metricsRequest = DispatchResult.noTermination) ∧
    (∀ fuel : Nat,
      dispatch_event fuel ValidatorEvent.contractRuntime = DispatchResult.todoPanic) := by
  constructor
  · intro fuel
    induction fuel with
    | zero => rfl
    | succ n ih => simpa [dispatch_event] using ih
  · intro fuel
    cases fuel <;> rfl

/-- For the remaining event variants the dispatcher does route to exactly one
component's `handle_event`: component events directly, requests and
announcements through one re-dispatch. -/
theorem dispatch_event_routes_to_one_component (fuel : Nat) :
    dispatch_event fuel ValidatorEvent.network =
      DispatchResult.handled ValidatorComponent.net ∧
    dispatch_event fuel ValidatorEvent.pinger =
      DispatchResult.handled ValidatorComponent.pinger ∧
    dispatch_event fuel ValidatorEvent.storage =
      DispatchResult.handled ValidatorComponent.storage ∧
    dispatch_event fuel ValidatorEvent.apiServer =
      DispatchResult.handled ValidatorComponent.apiServer ∧
    dispatch_event fuel ValidatorEvent.consensus =
      DispatchResult.handled ValidatorComponent.consensus ∧
    dispatch_event fuel ValidatorEvent.deployGossiper =
      DispatchResult.handled ValidatorComponent.deployGossiper ∧
    dispatch_event (fuel + 1) ValidatorEvent.networkRequest =
      DispatchResult.handled ValidatorComponent.net ∧
    dispatch_event (fuel + 1) (ValidatorEvent.networkAnnouncement ValidatorMessage.pinger) =
      DispatchResult.handled ValidatorComponent.pinger ∧
    dispatch_event (fuel + 1) (ValidatorEvent.networkAnnouncement ValidatorMessage.consensus) =
      DispatchResult.handled ValidatorComponent.consensus ∧
    dispatch_event (fuel + 1)
        (ValidatorEvent.networkAnnouncement ValidatorMessage.deployGossiper) =
      DispatchResult.handled ValidatorComponent.deployGossiper := by
  cases fuel <;>
    exact ⟨rfl, rfl, rfl, rfl, rfl, rfl, rfl, rfl, rfl, rfl⟩

/-! ## Claims about the generated reactor constructor -/

/-- C4: evaluation of the component-construction sequence generated by
`generate_reactor_impl`.  The components are constructed in declaration order
and a failing constructor short-circuits into the corresponding error, but
every component's initial effects are bound to a shadowed, unread variable:
the returned value holds the component fields only, identical whatever the
effects were, instead of the pair of reactor and union of wrapped effects the
claim (and the generated signature itself) promises. -/
theorem generatedNew_drops_initial_effects :
    (∀ (c1 c2 : Nat) (effects1 effects2 : List Nat),
      generatedNew ([Except.ok (c1, effects1), Except.ok (c2, effects2)] :
          List (Except Nat (Nat × List Nat))) =
        Except.ok [c1, c2]) ∧
    (∀ (err c : Nat) (effects : List Nat),
      generatedNew ([Except.error err, Except.ok (c, effects)] :
          List (Except Nat (Nat × List Nat))) =
        Except.error err) :=
  ⟨fun _ _ _ _ => rfl, fun _ _ _ => rfl⟩

/-! ## Claims about the three-stage lifecycle reactor -/

/-- C5: evaluation of the three-stage `dispatch_event` at the transition
points.  When the initializer reports a successful stop (with an empty
private queue), the transition arm aborts in the `todo!()` passed as the
joiner constructor's registry argument instead of reaching the Joining
stage.  When the joiner's inner reactor reports stopped, the dispatcher
returns normally and no transition is triggered — and because the
`mem::swap` of lines 106-107 is undone only inside the dead transition arms,
the outer reactor is left as `NotStarted`, whose stage is `NotStarted`
rather than `Validating` (the joiner state is lost outright).  The outer
state therefore never becomes Validating after two transitions. -/
theorem three_stage_transition_as_written :
    (ThreeStageReactor.dispatch_event
        (ThreeStageReactor.initializer
          { isStopped := false, stoppedSuccessfully := false } true)
        (ThreeStageEvent.initializerEvent
          { isStopped := true, stoppedSuccessfully := true }) =
      ThreeStageOutcome.panicked "not yet implemented") ∧
    (ThreeStageReactor.dispatch_event
        (ThreeStageReactor.joiner { isStopped := false, stoppedSuccessfully := false } true)
        (ThreeStageEvent.joinerEvent { isStopped := true, stoppedSuccessfully := true }) =
      ThreeStageOutcome.ok ThreeStageReactor.notStarted) ∧
    ThreeStageReactor.stage ThreeStageReactor.notStarted = Stage.notStarted :=
  ⟨rfl, rfl, rfl⟩

/-! ## Claims about the localhost socket allocator -/

/-- C8: evaluation of `unused_socket_on_localhost`.  The function binds a TCP
listener to `127.0.0.1` port 0 and returns the OS-assigned port with the live
listener as claimed, but the option it sets on the resulting socket is
`SO_REUSEPORT` (nix's `ReusePort`), not `SO_REUSEADDR` — even though its own
doc comment and `expect` message both say `SO_REUSEADDR`. -/
theorem unused_socket_on_localhost_trace (osAssignedPort : Nat) :
    (unused_socket_on_localhost osAssignedPort).bindIp = (127, 0, 0, 1) ∧
    (unused_socket_on_localhost osAssignedPort).bindPort = 0 ∧
    (unused_socket_on_localhost osAssignedPort).returnedPort = osAssignedPort ∧
    (unused_socket_on_localhost osAssignedPort).returnedListener =
      { localIp := (127, 0, 0, 1), localPort := osAssignedPort } ∧
    (unused_socket_on_localhost osAssignedPort).optionsSet = [SockOpt.reusePort] ∧
    (unused_socket_on_localhost osAssignedPort).optionsSet.contains SockOpt.reuseAddr =
      false :=
  ⟨rfl, rfl, rfl, rfl, rfl, rfl⟩

end CasperNode
